import Mathlib

/-!
Verification of `sber_neuro.stats.tests.compare_groups` (file
`src/sber_neuro/stats/tests.py`).

The function is embedded shallowly:

* Python floats flowing through the statistics are modelled as rationals
  (`ℚ`); the raw inputs may additionally contain not-a-number entries, so
  they are lists of `PyFloat` (`nan` or a rational value).
* The three scipy routines the source calls (`stats.shapiro`,
  `stats.ttest_ind`, `stats.mannwhitneyu`) are external library calls; they
  are modelled as an oracle record `StatsOracle` whose components return
  `Except PyError ℚ` (the p-value, or a raised exception).  Theorems
  quantify over the oracle, adding hypotheses that pin down documented
  scipy behaviour where a claim depends on it (for example that
  `stats.shapiro` raises `ValueError` on samples of fewer than 3 points).
* `compare_groups` itself returns `Except PyError ComparisonResult`:
  `Except.error` models an uncaught Python exception propagating out of
  the call, `Except.ok` the returned dict.
* Python string formatting `f"{p:.4f}"` is modelled by `formatFixed4`
  (round half to even at four decimal places), and `str.strip()` by
  `pyStrip`.
-/

namespace SberNeuro

/-- A Python float as it can appear in the raw input samples: either
not-a-number or an actual (finite) value, modelled as a rational. -/
inductive PyFloat where
  | nan : PyFloat
  | val : ℚ → PyFloat
deriving DecidableEq, Repr

/-- `a = a[~np.isnan(a)]`: drop the not-a-number entries, keep the values. -/
def sanitize (l : List PyFloat) : List ℚ :=
  l.filterMap (fun x => match x with | .nan => none | .val q => some q)

/-- A Python exception as relevant here: `ValueError` (the class the source
catches around the Shapiro–Wilk calls, and the class scipy raises from its
tests), or the `ComputationError` the specification speaks of.  The source
never constructs a `ComputationError`; the constructor exists so that the
specification's claim about it can be stated and compared with the code. -/
inductive PyError where
  | valueError : String → PyError
  | computationError : String → PyError
deriving DecidableEq, Repr

/-- The scipy routines `compare_groups` calls, as an oracle: each returns
the p-value of the corresponding test, or raises. -/
structure StatsOracle where
  shapiro : List ℚ → Except PyError ℚ
  ttest_ind : List ℚ → List ℚ → Except PyError ℚ
  mannwhitneyu : List ℚ → List ℚ → Except PyError ℚ

/-- The dict returned by `compare_groups`: exactly three fields. -/
structure ComparisonResult where
  p_value : ℚ
  significant : Bool
  message : String
deriving DecidableEq, Repr

/-- `np.mean`, for nonempty samples the arithmetic mean (for the empty
sample Lean's division by zero yields `0`; theorems that depend on the
mean carry nonemptiness hypotheses so that only the faithful case is
used). -/
def npMean (l : List ℚ) : ℚ := l.sum / l.length

/-- Decimal digit characters of `n`, most significant first, by fuel
recursion (fuel-structural so that the kernel can evaluate it). -/
def renderNatAux : ℕ → ℕ → List Char
  | 0, _ => []
  | _ + 1, 0 => []
  | fuel + 1, n + 1 =>
      renderNatAux fuel ((n + 1) / 10) ++ [Nat.digitChar ((n + 1) % 10)]

/-- Decimal rendering of a natural number. -/
def renderNat (n : ℕ) : List Char :=
  if n = 0 then ['0'] else renderNatAux (n + 1) n

/-- Round a rational to the nearest integer, ties to even — the rounding
CPython's fixed-point float formatting performs. -/
def roundHalfEven (q : ℚ) : ℤ :=
  let f := ⌊q⌋
  let d := q - f
  if d < 1/2 then f
  else if 1/2 < d then f + 1
  else if f % 2 = 0 then f else f + 1

/-- Model of the Python format `f"{q:.4f}"`: fixed-point, four digits
after the decimal point. -/
def formatFixed4 (q : ℚ) : List Char :=
  let n := roundHalfEven (q * 10000)
  let m := n.natAbs
  let ip := renderNat (m / 10000)
  let fp := renderNat (m % 10000)
  let sign : List Char := if n < 0 then ['-'] else []
  sign ++ ip ++ ['.'] ++ List.replicate (4 - fp.length) '0' ++ fp

/-- Whitespace in the sense of Python's `str.strip()` (the characters that
can actually occur in the strings at hand are only spaces). -/
def isPyWS (c : Char) : Bool :=
  c == ' ' || c == '\t' || c == '\n' || c == '\r'

/-- Python `str.strip()` on a character list: drop leading and trailing
whitespace. -/
def pyStripList (l : List Char) : List Char :=
  ((l.dropWhile isPyWS).reverse.dropWhile isPyWS).reverse

/-- Does `seg` occur as a contiguous segment of `l`? -/
def containsSeg (l seg : List Char) : Bool :=
  match l with
  | [] => seg.isEmpty
  | c :: cs => seg.isPrefixOf (c :: cs) || containsSeg cs seg

/-- Does the string `pat` occur as a substring of `s`? -/
def strContains (s pat : String) : Bool :=
  containsSeg s.data pat.data

/-- The body of the `if is_normal_a and is_normal_b:` branch — run the
independent T-test and package the result.  `tu` is `test_used`. -/
def runSelectedTest (testP : Except PyError ℚ) (tu : String)
    (a b : List ℚ) : Except PyError ComparisonResult :=
  match testP with
  | .error e => .error e
  | .ok p =>
      let significant : Bool := decide (p < 1/20)
      let mean_a := npMean a
      let mean_b := npMean b
      let direction : String :=
        if significant then
          if mean_a > mean_b then "Group A mean is higher."
          else "Group B mean is higher."
        else ""
      let msg_start : String :=
        if significant then
          "Significant difference found (p = " ++ ⟨formatFixed4 p⟩ ++ ")."
        else
          "No significant difference found (p = " ++ ⟨formatFixed4 p⟩ ++ ")."
      let message : String :=
        ⟨pyStripList (msg_start ++ " Used " ++ tu ++ ". " ++ direction).data⟩
      .ok { p_value := p, significant := significant, message := message }

/-- The normality check of the source: both `stats.shapiro` calls sit in a
single `try:` whose `except ValueError:` sets both flags to `False`; any
other exception propagates.  `shapiro(b)` is only evaluated when
`shapiro(a)` did not raise. -/
def normalityFlags (o : StatsOracle) (a b : List ℚ) :
    Except PyError (Bool × Bool) :=
  match o.shapiro a with
  | .error (.valueError _) => .ok (false, false)
  | .error e => .error e
  | .ok pa =>
      match o.shapiro b with
      | .error (.valueError _) => .ok (false, false)
      | .error e => .error e
      | .ok pb => .ok (decide (pa ≥ 1/20), decide (pb ≥ 1/20))

/-- `compare_groups(data_a, data_b, method='t-test')` of
`src/sber_neuro/stats/tests.py`.  The `method` parameter is accepted and,
as in the source, never read. -/
def compare_groups (o : StatsOracle) (data_a data_b : List PyFloat)
    (method : String) : Except PyError ComparisonResult :=
  let a := sanitize data_a
  let b := sanitize data_b
  match normalityFlags o a b with
  | .error e => .error e
  | .ok (is_normal_a, is_normal_b) =>
      if is_normal_a && is_normal_b then
        runSelectedTest (o.ttest_ind a b) "T-test" a b
      else
        runSelectedTest (o.mannwhitneyu a b) "Mann-Whitney U test" a b

/-- The decimal digit characters. -/
def digitChars : List Char := ['0', '1', '2', '3', '4', '5', '6', '7', '8', '9']

/-- The characters that can occur in the output of `formatFixed4`. -/
def numChars : List Char := '-' :: '.' :: digitChars

/-- A text is a single sentence when no sentence-ending period is followed
by further text, i.e. the two-character segment `". "` never occurs. -/
def isSingleSentence (s : String) : Bool := !(containsSeg s.data ['.', ' '])

/-- A concrete oracle for witnesses: Shapiro–Wilk raises `ValueError` below
3 observations (as scipy documents) and otherwise reports p = 9/10; the
T-test reports p = 1/100 and the Mann-Whitney test p = 3/10. -/
def demoOracle : StatsOracle where
  shapiro := fun l =>
    if l.length < 3 then .error (.valueError "Data must be at least length 3.")
    else .ok (9/10)
  ttest_ind := fun _ _ => .ok (1/100)
  mannwhitneyu := fun _ _ => .ok (3/10)

/-- A concrete oracle whose Mann-Whitney test raises `ValueError` on an
empty sample, as scipy's does. -/
def mwErrOracle : StatsOracle where
  shapiro := fun l =>
    if l.length < 3 then .error (.valueError "Data must be at least length 3.")
    else .ok (9/10)
  ttest_ind := fun _ _ => .ok (1/2)
  mannwhitneyu := fun a b =>
    if a.isEmpty || b.isEmpty then
      .error (.valueError "zero-size array to reduction operation")
    else .ok (1/2)

/-- A concrete oracle for exercising the normal/normal branch with a
non-significant outcome, and the mean tie-break: Shapiro–Wilk accepts
normality, the tests report p = 1/100 (T) and p = 3/10 (MW). -/
def tieOracle : StatsOracle where
  shapiro := fun l =>
    if l.length < 3 then .error (.valueError "Data must be at least length 3.")
    else .ok (1/2)
  ttest_ind := fun _ _ => .ok (1/100)
  mannwhitneyu := fun _ _ => .ok (3/10)

/-! ## Substring infrastructure -/

theorem isPrefixOf_mem {seg l : List Char} (h : seg.isPrefixOf l = true) :
    ∀ c ∈ seg, c ∈ l := by
  induction seg generalizing l with
  | nil => intro c hc; simp at hc
  | cons a t ih =>
      cases l with
      | nil => simp [List.isPrefixOf] at h
      | cons b u =>
          simp only [List.isPrefixOf, Bool.and_eq_true, beq_iff_eq] at h
          obtain ⟨hab, hta⟩ := h
          intro c hc
          rcases List.mem_cons.mp hc with hca | hct
          · subst hca; subst hab; exact List.mem_cons_self _ _
          · exact List.mem_cons_of_mem _ (ih hta c hct)

theorem isPrefixOf_append_self (seg l : List Char) :
    seg.isPrefixOf (seg ++ l) = true := by
  induction seg with
  | nil => simp [List.isPrefixOf]
  | cons a t ih => simp [List.isPrefixOf, ih]

theorem containsSeg_mem {l seg : List Char} (h : containsSeg l seg = true) :
    ∀ c ∈ seg, c ∈ l := by
  induction l with
  | nil =>
      simp only [containsSeg, List.isEmpty_iff] at h
      subst h; intro c hc; simp at hc
  | cons a t ih =>
      simp only [containsSeg, Bool.or_eq_true] at h
      rcases h with h | h
      · exact isPrefixOf_mem h
      · exact fun c hc => List.mem_cons_of_mem _ (ih h c hc)

theorem containsSeg_nil (l : List Char) : containsSeg l [] = true := by
  cases l with
  | nil => simp [containsSeg]
  | cons a t => simp [containsSeg, List.isPrefixOf]

theorem containsSeg_intro (l₁ seg l₂ : List Char) :
    containsSeg (l₁ ++ (seg ++ l₂)) seg = true := by
  induction l₁ with
  | nil =>
      cases seg with
      | nil => simpa using containsSeg_nil l₂
      | cons a t =>
          simp only [List.nil_append, containsSeg, Bool.or_eq_true]
          exact Or.inl (isPrefixOf_append_self (a :: t) l₂)
  | cons c cs ih =>
      simp only [List.cons_append, containsSeg, Bool.or_eq_true]
      exact Or.inr ih

theorem containsSeg_eq_false_of_not_mem {l seg : List Char} {c : Char}
    (hc : c ∈ seg) (hl : c ∉ l) : containsSeg l seg = false := by
  cases h : containsSeg l seg with
  | false => rfl
  | true => exact absurd (containsSeg_mem h c hc) hl

/-! ## Characters of the rendered p-value -/

theorem digitChar_mem_digitChars {d : ℕ} (hd : d < 10) :
    Nat.digitChar d ∈ digitChars := by
  interval_cases d <;> decide

theorem renderNatAux_subset :
    ∀ fuel n, ∀ c ∈ renderNatAux fuel n, c ∈ digitChars := by
  intro fuel
  induction fuel with
  | zero => intro n c hc; simp [renderNatAux] at hc
  | succ f ih =>
      intro n c hc
      cases n with
      | zero => simp [renderNatAux] at hc
      | succ m =>
          simp only [renderNatAux, List.mem_append, List.mem_singleton] at hc
          rcases hc with hc | hc
          · exact ih _ c hc
          · subst hc
            exact digitChar_mem_digitChars (Nat.mod_lt _ (by norm_num))

theorem renderNat_subset (n : ℕ) : ∀ c ∈ renderNat n, c ∈ digitChars := by
  intro c hc
  unfold renderNat at hc
  split at hc
  · simp only [List.mem_singleton] at hc; subst hc; decide
  · exact renderNatAux_subset _ _ c hc

theorem mem_numChars_of_digit {c : Char} (h : c ∈ digitChars) :
    c ∈ numChars := by
  simp only [numChars, List.mem_cons]
  exact Or.inr (Or.inr h)

theorem formatFixed4_subset (q : ℚ) : ∀ c ∈ formatFixed4 q, c ∈ numChars := by
  intro c hc
  simp only [formatFixed4] at hc
  rcases List.mem_append.mp hc with hc | hc
  · rcases List.mem_append.mp hc with hc | hc
    · rcases List.mem_append.mp hc with hc | hc
      · rcases List.mem_append.mp hc with hc | hc
        · split at hc
          · simp only [List.mem_singleton] at hc; subst hc; decide
          · simp at hc
        · exact mem_numChars_of_digit (renderNat_subset _ c hc)
      · simp only [List.mem_singleton] at hc; subst hc; decide
    · rcases List.mem_replicate.mp hc with ⟨-, hc⟩; subst hc; decide
  · exact mem_numChars_of_digit (renderNat_subset _ c hc)

/-! ## Stripping -/

theorem pyStripList_subset (l : List Char) : ∀ c ∈ pyStripList l, c ∈ l := by
  intro c hc
  simp only [pyStripList, List.mem_reverse] at hc
  have h1 := (List.dropWhile_sublist
    (l := (List.dropWhile isPyWS l).reverse) isPyWS).subset hc
  simp only [List.mem_reverse] at h1
  exact (List.dropWhile_sublist (l := l) isPyWS).subset h1

theorem pyStripList_around (c : Char) (l : List Char) (d : Char)
    (hc : isPyWS c = false) (hd : isPyWS d = false) :
    pyStripList (c :: l ++ [d]) = c :: l ++ [d] := by
  unfold pyStripList
  rw [show (c :: l ++ [d]).dropWhile isPyWS = c :: l ++ [d] from by
    simp [List.dropWhile_cons, hc]]
  rw [show (c :: l ++ [d]).reverse = d :: (c :: l).reverse from by simp]
  rw [show (d :: (c :: l).reverse).dropWhile isPyWS = d :: (c :: l).reverse from by
    simp [List.dropWhile_cons, hd]]
  simp

theorem pyStripList_dot_space (c : Char) (l : List Char)
    (hc : isPyWS c = false) :
    pyStripList (c :: l ++ ['.', ' ']) = c :: l ++ ['.'] := by
  unfold pyStripList
  rw [show (c :: l ++ ['.', ' ']).dropWhile isPyWS = c :: l ++ ['.', ' '] from by
    simp [List.dropWhile_cons, hc]]
  rw [show (c :: l ++ ['.', ' ']).reverse = ' ' :: '.' :: (c :: l).reverse from by
    simp]
  rw [show (' ' :: '.' :: (c :: l).reverse).dropWhile isPyWS
        = '.' :: (c :: l).reverse from by
    simp [List.dropWhile_cons, isPyWS]]
  simp

theorem pyStripList_cons (c : Char) (l : List Char) (hc : isPyWS c = false) :
    pyStripList (c :: l) = c :: (l.reverse.dropWhile isPyWS).reverse := by
  unfold pyStripList
  rw [show (c :: l).dropWhile isPyWS = c :: l from by
    simp [List.dropWhile_cons, hc]]
  rw [show (c :: l).reverse = l.reverse ++ [c] from by simp]
  rw [List.dropWhile_append]
  by_cases h : (l.reverse.dropWhile isPyWS).isEmpty
  · rw [if_pos h]
    rw [show ([c].dropWhile isPyWS) = [c] from by simp [List.dropWhile_cons, hc]]
    simp only [List.isEmpty_iff] at h
    simp [h]
  · rw [if_neg h]
    simp

/-! ## Shape of the result of `runSelectedTest` -/

theorem runSelectedTest_ok_nonsig (p : ℚ) (tu : String) (a b : List ℚ)
    (hp : ¬ p < 1/20) :
    runSelectedTest (.ok p) tu a b = .ok
      { p_value := p, significant := false,
        message := ⟨"No significant difference found (p = ".data ++
          formatFixed4 p ++ ").".data ++ " Used ".data ++ tu.data ++ ['.']⟩ } := by
  have hN : "No significant difference found (p = ".data
      = 'N' :: "o significant difference found (p = ".data := rfl
  have hDS : ". ".data = ['.', ' '] := rfl
  simp only [runSelectedTest, decide_eq_false hp, Bool.false_eq_true, if_false,
    Except.ok.injEq, ComparisonResult.mk.injEq, true_and]
  apply congrArg String.mk
  simp only [String.data_append, hN, hDS, List.cons_append, List.append_assoc]
  rw [pyStripList_cons _ _ (by decide)]
  simp [List.dropWhile_cons, isPyWS]

theorem runSelectedTest_ok_sig_A (p : ℚ) (tu : String) (a b : List ℚ)
    (hp : p < 1/20) (hm : npMean a > npMean b) :
    runSelectedTest (.ok p) tu a b = .ok
      { p_value := p, significant := true,
        message := ⟨"Significant difference found (p = ".data ++
          formatFixed4 p ++ ").".data ++ " Used ".data ++ tu.data ++
          ". ".data ++ "Group A mean is higher.".data⟩ } := by
  have hS : "Significant difference found (p = ".data
      = 'S' :: "ignificant difference found (p = ".data := rfl
  have hGA : "Group A mean is higher.".data
      = "Group A mean is higher".data ++ ['.'] := rfl
  have hDS : ". ".data = ['.', ' '] := rfl
  simp only [runSelectedTest, decide_eq_true hp, if_true, if_pos hm,
    Except.ok.injEq, ComparisonResult.mk.injEq, true_and]
  apply congrArg String.mk
  simp only [String.data_append, hS, hGA, hDS, List.cons_append,
    List.append_assoc]
  rw [pyStripList_cons _ _ (by decide)]
  simp [List.dropWhile_cons, isPyWS]

theorem runSelectedTest_ok_sig_B (p : ℚ) (tu : String) (a b : List ℚ)
    (hp : p < 1/20) (hm : ¬ npMean a > npMean b) :
    runSelectedTest (.ok p) tu a b = .ok
      { p_value := p, significant := true,
        message := ⟨"Significant difference found (p = ".data ++
          formatFixed4 p ++ ").".data ++ " Used ".data ++ tu.data ++
          ". ".data ++ "Group B mean is higher.".data⟩ } := by
  have hS : "Significant difference found (p = ".data
      = 'S' :: "ignificant difference found (p = ".data := rfl
  have hGB : "Group B mean is higher.".data
      = "Group B mean is higher".data ++ ['.'] := rfl
  have hDS : ". ".data = ['.', ' '] := rfl
  simp only [runSelectedTest, decide_eq_true hp, if_true, if_neg hm,
    Except.ok.injEq, ComparisonResult.mk.injEq, true_and]
  apply congrArg String.mk
  simp only [String.data_append, hS, hGB, hDS, List.cons_append,
    List.append_assoc]
  rw [pyStripList_cons _ _ (by decide)]
  simp [List.dropWhile_cons, isPyWS]

/-! ## Structure of the rendered p-value -/

theorem roundHalfEven_nonneg {q : ℚ} (hq : 0 ≤ q) : 0 ≤ roundHalfEven q := by
  have hf : (0:ℤ) ≤ ⌊q⌋ := Int.floor_nonneg.mpr hq
  simp only [roundHalfEven]
  split
  · exact hf
  · split
    · linarith
    · split
      · exact hf
      · linarith

theorem renderNatAux_length :
    ∀ (fuel n k : ℕ), n < 10 ^ k → (renderNatAux fuel n).length ≤ k := by
  intro fuel
  induction fuel with
  | zero => intro n k _; simp [renderNatAux]
  | succ f ih =>
      intro n k hn
      cases n with
      | zero => simp [renderNatAux]
      | succ m =>
          cases k with
          | zero => simp at hn
          | succ k' =>
              simp only [renderNatAux, List.length_append,
                List.length_singleton]
              have hdiv : (m + 1) / 10 < 10 ^ k' := by
                have h10 : m + 1 < 10 ^ k' * 10 := by
                  rw [← pow_succ]; exact hn
                exact (Nat.div_lt_iff_lt_mul (by norm_num)).mpr h10
              have := ih ((m + 1) / 10) k' hdiv
              omega

theorem renderNat_length_le {n k : ℕ} (hk : 0 < k) (hn : n < 10 ^ k) :
    (renderNat n).length ≤ k := by
  unfold renderNat
  split
  · simpa using hk
  · exact renderNatAux_length _ _ _ hn

theorem formatFixed4_shape {q : ℚ} (hq : 0 ≤ q) :
    ∃ ip fr : List Char, formatFixed4 q = ip ++ '.' :: fr ∧ fr.length = 4 ∧
      ∀ c ∈ ip, c ∈ digitChars := by
  have h0 : (0:ℚ) ≤ q * 10000 := by positivity
  have hn : ¬ roundHalfEven (q * 10000) < 0 :=
    not_lt.mpr (roundHalfEven_nonneg h0)
  refine ⟨renderNat ((roundHalfEven (q * 10000)).natAbs / 10000),
    List.replicate
      (4 - (renderNat ((roundHalfEven (q * 10000)).natAbs % 10000)).length) '0'
      ++ renderNat ((roundHalfEven (q * 10000)).natAbs % 10000),
    ?_, ?_, renderNat_subset _⟩
  · simp [formatFixed4, hn, List.append_assoc]
  · have hlt : (roundHalfEven (q * 10000)).natAbs % 10000 < 10000 :=
      Nat.mod_lt _ (by norm_num)
    have hle : (renderNat ((roundHalfEven (q * 10000)).natAbs % 10000)).length
        ≤ 4 := renderNat_length_le (by norm_num) (by norm_num [hlt])
    simp only [List.length_append, List.length_replicate]
    omega

/-! ## Inversion helpers -/

theorem runSelectedTest_ok_inv {res : Except PyError ℚ} {tu : String}
    {a b : List ℚ} {r : ComparisonResult}
    (h : runSelectedTest res tu a b = .ok r) :
    res = .ok r.p_value ∧ r.significant = decide (r.p_value < 1/20) := by
  cases res with
  | error e => simp [runSelectedTest] at h
  | ok p =>
      simp only [runSelectedTest, Except.ok.injEq] at h
      subst h
      exact ⟨rfl, rfl⟩

theorem compare_groups_eq (o : StatsOracle) (da db : List PyFloat)
    (meth : String) :
    compare_groups o da db meth =
      match normalityFlags o (sanitize da) (sanitize db) with
      | .error e => .error e
      | .ok (na, nb) =>
          if na && nb then
            runSelectedTest (o.ttest_ind (sanitize da) (sanitize db))
              "T-test" (sanitize da) (sanitize db)
          else
            runSelectedTest (o.mannwhitneyu (sanitize da) (sanitize db))
              "Mann-Whitney U test" (sanitize da) (sanitize db) := rfl

theorem compare_groups_ok_inv {o : StatsOracle} {da db : List PyFloat}
    {meth : String} {r : ComparisonResult}
    (h : compare_groups o da db meth = .ok r) :
    ∃ na nb : Bool, normalityFlags o (sanitize da) (sanitize db) = .ok (na, nb)
      ∧ ((na && nb) = true ∧
          runSelectedTest (o.ttest_ind (sanitize da) (sanitize db))
            "T-test" (sanitize da) (sanitize db) = .ok r
        ∨ (na && nb) = false ∧
          runSelectedTest (o.mannwhitneyu (sanitize da) (sanitize db))
            "Mann-Whitney U test" (sanitize da) (sanitize db) = .ok r) := by
  rw [compare_groups_eq] at h
  cases hn : normalityFlags o (sanitize da) (sanitize db) with
  | error e => rw [hn] at h; simp at h
  | ok pr =>
      obtain ⟨na, nb⟩ := pr
      rw [hn] at h
      dsimp only at h
      refine ⟨na, nb, rfl, ?_⟩
      cases hb : (na && nb) with
      | true => rw [hb] at h; simp only [if_true] at h; exact Or.inl ⟨rfl, h⟩
      | false => rw [hb] at h; simp only [Bool.false_eq_true, if_false] at h
                 exact Or.inr ⟨rfl, h⟩

theorem normalityFlags_ok_ok {o : StatsOracle} {a b : List ℚ} {pa pb : ℚ}
    (ha : o.shapiro a = .ok pa) (hb : o.shapiro b = .ok pb) :
    normalityFlags o a b = .ok (decide (pa ≥ 1/20), decide (pb ≥ 1/20)) := by
  simp [normalityFlags, ha, hb]

theorem normalityFlags_valueError_left {o : StatsOracle} {a b : List ℚ}
    {m : String} (ha : o.shapiro a = .error (.valueError m)) :
    normalityFlags o a b = .ok (false, false) := by
  simp [normalityFlags, ha]

theorem normalityFlags_valueError_right {o : StatsOracle} {a b : List ℚ}
    {pa : ℚ} {m : String} (ha : o.shapiro a = .ok pa)
    (hb : o.shapiro b = .error (.valueError m)) :
    normalityFlags o a b = .ok (false, false) := by
  simp [normalityFlags, ha, hb]

/-! ## The claims -/

/-- C9: the `method` parameter of `compare_groups` has no effect on the
result: for every pair of input samples and every two values of `method`,
the two invocations return identical results; the test actually run is
determined solely by the normality checks. -/
theorem C9_method_no_effect (o : StatsOracle) (da db : List PyFloat)
    (m₁ m₂ : String) :
    compare_groups o da db m₁ = compare_groups o da db m₂ := rfl

/-- C8: `compare_groups` is deterministic (and, being modelled as a pure
function of its inputs, free of I/O and external state): any two
invocations on equal inputs yield identical `p_value`, `significant` and
`message`. -/
theorem C8_deterministic (o : StatsOracle) {da da' db db' : List PyFloat}
    {m m' : String} (h1 : da = da') (h2 : db = db') (h3 : m = m') :
    compare_groups o da db m = compare_groups o da' db' m' := by
  subst h1; subst h2; subst h3; rfl

theorem C8_deterministic_witness :
    [PyFloat.val 1, PyFloat.val 2] = [PyFloat.val 1, PyFloat.val 2] ∧
    compare_groups demoOracle [PyFloat.val 1, PyFloat.val 2]
        [PyFloat.val 3, PyFloat.val 4] "t-test"
      = compare_groups demoOracle [PyFloat.val 1, PyFloat.val 2]
        [PyFloat.val 3, PyFloat.val 4] "t-test" :=
  ⟨rfl, C8_deterministic demoOracle rfl rfl rfl⟩

/-- C5: `compare_groups` depends on each sample only through its
sanitized value: inputs whose not-a-number entries are dropped to the
same sanitized sequences (in particular, an input with NaNs inserted at
any positions versus the input with those entries removed first) produce
identical results.  The two samples are sanitized independently. -/
theorem C5_sanitization_invariance (o : StatsOracle)
    (da da' db db' : List PyFloat) (m : String)
    (h1 : sanitize da' = sanitize da) (h2 : sanitize db' = sanitize db) :
    compare_groups o da' db' m = compare_groups o da db m := by
  rw [compare_groups_eq, compare_groups_eq, h1, h2]

theorem C5_sanitization_invariance_witness :
    sanitize [PyFloat.val 1, PyFloat.nan, PyFloat.val 3]
      = sanitize [PyFloat.val 1, PyFloat.val 3] ∧
    sanitize [PyFloat.nan, PyFloat.val 2, PyFloat.val 4]
      = sanitize [PyFloat.val 2, PyFloat.val 4] ∧
    compare_groups demoOracle [PyFloat.val 1, PyFloat.nan, PyFloat.val 3]
        [PyFloat.nan, PyFloat.val 2, PyFloat.val 4] "t-test"
      = compare_groups demoOracle [PyFloat.val 1, PyFloat.val 3]
        [PyFloat.val 2, PyFloat.val 4] "t-test" :=
  ⟨rfl, rfl,
    C5_sanitization_invariance demoOracle _ _ _ _ "t-test" rfl rfl⟩

/-- C3: for every result returned by `compare_groups`, the `significant`
field equals the comparison `p_value < 0.05`, with the fixed threshold
1/20 = 0.05. -/
theorem C3_threshold_consistency (o : StatsOracle) (da db : List PyFloat)
    (m : String) (r : ComparisonResult)
    (h : compare_groups o da db m = .ok r) :
    r.significant = true ↔ r.p_value < 1/20 := by
  obtain ⟨na, nb, -, hcase⟩ := compare_groups_ok_inv h
  rcases hcase with ⟨-, hr⟩ | ⟨-, hr⟩ <;>
  · rw [(runSelectedTest_ok_inv hr).2]
    simp

theorem C3_threshold_consistency_witness :
    compare_groups demoOracle
        [PyFloat.val 1, PyFloat.val 2, PyFloat.val 3]
        [PyFloat.val 4, PyFloat.val 5, PyFloat.val 6] "t-test"
      = .ok { p_value := 1/100, significant := true,
              message := "Significant difference found (p = 0.0100). Used T-test. Group B mean is higher." }
    ∧ ((({ p_value := 1/100, significant := true,
           message := "Significant difference found (p = 0.0100). Used T-test. Group B mean is higher." } : ComparisonResult).significant = true)
        ↔ ({ p_value := 1/100, significant := true,
              message := "Significant difference found (p = 0.0100). Used T-test. Group B mean is higher." } : ComparisonResult).p_value < 1/20) :=
  ⟨by with_unfolding_all rfl,
    C3_threshold_consistency demoOracle
      [PyFloat.val 1, PyFloat.val 2, PyFloat.val 3]
      [PyFloat.val 4, PyFloat.val 5, PyFloat.val 6] "t-test"
      { p_value := 1/100, significant := true,
        message := "Significant difference found (p = 0.0100). Used T-test. Group B mean is higher." }
      (by with_unfolding_all rfl)⟩

/-- C2: whenever the normality diagnostic cannot run on either sample —
because a sanitized sample has fewer than 3 observations (scipy's
documented `ValueError`, taken as a hypothesis on the oracle) or because
the diagnostic raises a value error for any other reason — both samples
are classified not-normal and the non-parametric path is taken, and the
diagnostic's error is not surfaced: the call's outcome is exactly that of
the Mann-Whitney branch, which never consults the diagnostic. -/
theorem C2_fallback_not_normal (o : StatsOracle) (da db : List PyFloat)
    (m : String)
    (hspec : ∀ l : List ℚ, l.length < 3 →
      ∃ msg, o.shapiro l = .error (.valueError msg))
    (hA : (∃ p, o.shapiro (sanitize da) = .ok p)
      ∨ ∃ msg, o.shapiro (sanitize da) = .error (.valueError msg))
    (hfail : (sanitize da).length < 3 ∨ (sanitize db).length < 3
      ∨ (∃ msg, o.shapiro (sanitize da) = .error (.valueError msg))
      ∨ (∃ msg, o.shapiro (sanitize db) = .error (.valueError msg))) :
    normalityFlags o (sanitize da) (sanitize db) = .ok (false, false) ∧
    compare_groups o da db m =
      runSelectedTest (o.mannwhitneyu (sanitize da) (sanitize db))
        "Mann-Whitney U test" (sanitize da) (sanitize db) := by
  have hkey : normalityFlags o (sanitize da) (sanitize db)
      = .ok (false, false) := by
    have hfail' : (∃ msg, o.shapiro (sanitize da) = .error (.valueError msg))
        ∨ (∃ msg, o.shapiro (sanitize db) = .error (.valueError msg)) := by
      rcases hfail with h | h | h | h
      · exact Or.inl (hspec _ h)
      · exact Or.inr (hspec _ h)
      · exact Or.inl h
      · exact Or.inr h
    rcases hfail' with ⟨msg, ha⟩ | ⟨msg, hb⟩
    · exact normalityFlags_valueError_left ha
    · rcases hA with ⟨p, hok⟩ | ⟨msg2, herr⟩
      · exact normalityFlags_valueError_right hok hb
      · exact normalityFlags_valueError_left herr
  refine ⟨hkey, ?_⟩
  rw [compare_groups_eq, hkey]
  rfl

theorem C2_fallback_not_normal_witness :
    (sanitize [PyFloat.val 1, PyFloat.val 2]).length < 3 ∧
    (normalityFlags demoOracle (sanitize [PyFloat.val 1, PyFloat.val 2])
        (sanitize [PyFloat.val 4, PyFloat.val 5, PyFloat.val 6])
        = .ok (false, false) ∧
      compare_groups demoOracle [PyFloat.val 1, PyFloat.val 2]
          [PyFloat.val 4, PyFloat.val 5, PyFloat.val 6] "t-test"
        = runSelectedTest
            (demoOracle.mannwhitneyu
              (sanitize [PyFloat.val 1, PyFloat.val 2])
              (sanitize [PyFloat.val 4, PyFloat.val 5, PyFloat.val 6]))
            "Mann-Whitney U test"
            (sanitize [PyFloat.val 1, PyFloat.val 2])
            (sanitize [PyFloat.val 4, PyFloat.val 5, PyFloat.val 6])) :=
  ⟨by decide,
    C2_fallback_not_normal demoOracle [PyFloat.val 1, PyFloat.val 2]
      [PyFloat.val 4, PyFloat.val 5, PyFloat.val 6] "t-test"
      (fun l hl => ⟨"Data must be at least length 3.",
        by simp [demoOracle, hl]⟩)
      (Or.inr ⟨"Data must be at least length 3.", by with_unfolding_all rfl⟩)
      (Or.inl (by decide))⟩

/-- C6, counterexample: the claim says a failure of the selected
hypothesis test is surfaced as a `ComputationError`, but the source wraps
nothing around the test calls — the library's own error (modelled here:
scipy's `ValueError` on an empty sample) propagates unchanged, and no
`ComputationError` is ever constructed. -/
theorem C6_computation_error_counterexample :
    compare_groups mwErrOracle [] [PyFloat.val 1, PyFloat.val 2] "t-test"
      = .error (.valueError "zero-size array to reduction operation")
    ∧ ¬ ∃ msg, compare_groups mwErrOracle [] [PyFloat.val 1, PyFloat.val 2]
        "t-test" = .error (.computationError msg) := by
  have h : compare_groups mwErrOracle [] [PyFloat.val 1, PyFloat.val 2]
      "t-test" = .error (.valueError "zero-size array to reduction operation")
    := by with_unfolding_all rfl
  refine ⟨h, ?_⟩
  rintro ⟨msg, hmsg⟩
  rw [h] at hmsg
  simp at hmsg

/-- C6, amended: when the selected hypothesis test raises, `compare_groups`
fails the whole call by propagating that error unchanged — no partial
result is returned, but the error is the underlying library's own
exception (e.g. a `ValueError`), not a `ComputationError`. -/
theorem C6_amended_error_propagation (o : StatsOracle) (da db : List PyFloat)
    (m : String) (na nb : Bool) (e : PyError)
    (hn : normalityFlags o (sanitize da) (sanitize db) = .ok (na, nb))
    (ht : (if na && nb then o.ttest_ind (sanitize da) (sanitize db)
           else o.mannwhitneyu (sanitize da) (sanitize db)) = .error e) :
    compare_groups o da db m = .error e := by
  rw [compare_groups_eq, hn]
  dsimp only
  cases hb : (na && nb) with
  | true =>
      rw [hb] at ht
      simp only [if_true] at ht ⊢
      rw [ht]
      rfl
  | false =>
      rw [hb] at ht
      simp only [Bool.false_eq_true, if_false] at ht ⊢
      rw [ht]
      rfl

theorem C6_amended_error_propagation_witness :
    normalityFlags mwErrOracle (sanitize ([] : List PyFloat))
        (sanitize [PyFloat.val 1, PyFloat.val 2]) = .ok (false, false) ∧
    compare_groups mwErrOracle [] [PyFloat.val 1, PyFloat.val 2] "t-test"
      = .error (.valueError "zero-size array to reduction operation") :=
  ⟨by with_unfolding_all rfl,
    C6_amended_error_propagation mwErrOracle [] [PyFloat.val 1, PyFloat.val 2]
      "t-test" false false
      (.valueError "zero-size array to reduction operation")
      (by with_unfolding_all rfl) (by with_unfolding_all rfl)⟩

/-! ## Membership in the assembled messages -/

theorem strContains_eq_false_of {s pat : String} {c : Char}
    (hc : c ∈ pat.data) (hl : c ∉ s.data) : strContains s pat = false :=
  containsSeg_eq_false_of_not_mem hc hl

theorem mem_message_nonsig {p : ℚ} {tu : String} {c : Char}
    (h : c ∈ "No significant difference found (p = ".data ++ formatFixed4 p
        ++ ").".data ++ " Used ".data ++ tu.data ++ ['.']) :
    c ∈ "No significant difference found (p = ".data ∨ c ∈ numChars
      ∨ c ∈ "). Used .".data ∨ c ∈ tu.data := by
  rcases List.mem_append.mp h with h | h
  case inr =>
    simp only [List.mem_singleton] at h
    subst h
    exact Or.inr (Or.inr (Or.inl (by decide)))
  rcases List.mem_append.mp h with h | h
  case inr => exact Or.inr (Or.inr (Or.inr h))
  rcases List.mem_append.mp h with h | h
  case inr =>
    exact Or.inr (Or.inr (Or.inl
      ((by decide : ∀ x ∈ " Used ".data, x ∈ "). Used .".data) c h)))
  rcases List.mem_append.mp h with h | h
  case inr =>
    exact Or.inr (Or.inr (Or.inl
      ((by decide : ∀ x ∈ ").".data, x ∈ "). Used .".data) c h)))
  rcases List.mem_append.mp h with h | h
  case inr => exact Or.inr (Or.inl (formatFixed4_subset _ c h))
  exact Or.inl h

theorem mem_message_sig {p : ℚ} {tu dir : String} {c : Char}
    (h : c ∈ "Significant difference found (p = ".data ++ formatFixed4 p
        ++ ").".data ++ " Used ".data ++ tu.data ++ ". ".data ++ dir.data) :
    c ∈ "Significant difference found (p = ".data ∨ c ∈ numChars
      ∨ c ∈ "). Used . ".data ∨ c ∈ tu.data ∨ c ∈ dir.data := by
  rcases List.mem_append.mp h with h | h
  case inr => exact Or.inr (Or.inr (Or.inr (Or.inr h)))
  rcases List.mem_append.mp h with h | h
  case inr =>
    exact Or.inr (Or.inr (Or.inl
      ((by decide : ∀ x ∈ ". ".data, x ∈ "). Used . ".data) c h)))
  rcases List.mem_append.mp h with h | h
  case inr => exact Or.inr (Or.inr (Or.inr (Or.inl h)))
  rcases List.mem_append.mp h with h | h
  case inr =>
    exact Or.inr (Or.inr (Or.inl
      ((by decide : ∀ x ∈ " Used ".data, x ∈ "). Used . ".data) c h)))
  rcases List.mem_append.mp h with h | h
  case inr =>
    exact Or.inr (Or.inr (Or.inl
      ((by decide : ∀ x ∈ ").".data, x ∈ "). Used . ".data) c h)))
  rcases List.mem_append.mp h with h | h
  case inr => exact Or.inr (Or.inl (formatFixed4_subset _ c h))
  exact Or.inl h

/-- Full case analysis of a successful `runSelectedTest`: the returned
record is determined by the p-value and the mean comparison. -/
theorem runSelectedTest_ok_elim {p : ℚ} {tu : String} {a b : List ℚ}
    {r : ComparisonResult} (h : runSelectedTest (.ok p) tu a b = .ok r) :
    r.p_value = p ∧
    ((¬ p < 1/20 ∧ r.significant = false ∧
        r.message = ⟨"No significant difference found (p = ".data
          ++ formatFixed4 p ++ ").".data ++ " Used ".data ++ tu.data ++ ['.']⟩)
     ∨ (p < 1/20 ∧ npMean a > npMean b ∧ r.significant = true ∧
        r.message = ⟨"Significant difference found (p = ".data
          ++ formatFixed4 p ++ ").".data ++ " Used ".data ++ tu.data
          ++ ". ".data ++ "Group A mean is higher.".data⟩)
     ∨ (p < 1/20 ∧ ¬ npMean a > npMean b ∧ r.significant = true ∧
        r.message = ⟨"Significant difference found (p = ".data
          ++ formatFixed4 p ++ ").".data ++ " Used ".data ++ tu.data
          ++ ". ".data ++ "Group B mean is higher.".data⟩)) := by
  by_cases hp : p < 1/20
  · by_cases hm : npMean a > npMean b
    · rw [runSelectedTest_ok_sig_A p tu a b hp hm] at h
      simp only [Except.ok.injEq] at h
      subst h
      exact ⟨rfl, Or.inr (Or.inl ⟨hp, hm, rfl, rfl⟩)⟩
    · rw [runSelectedTest_ok_sig_B p tu a b hp hm] at h
      simp only [Except.ok.injEq] at h
      subst h
      exact ⟨rfl, Or.inr (Or.inr ⟨hp, hm, rfl, rfl⟩)⟩
  · rw [runSelectedTest_ok_nonsig p tu a b hp] at h
    simp only [Except.ok.injEq] at h
    subst h
    exact ⟨rfl, Or.inl ⟨hp, rfl, rfl⟩⟩

theorem containsSeg_message_nonsig (p : ℚ) (tu : String) :
    containsSeg ("No significant difference found (p = ".data
      ++ formatFixed4 p ++ ").".data ++ " Used ".data ++ tu.data ++ ['.'])
      tu.data = true := by
  have hsplit : "No significant difference found (p = ".data
        ++ formatFixed4 p ++ ").".data ++ " Used ".data ++ tu.data ++ ['.']
      = ("No significant difference found (p = ".data ++ formatFixed4 p
          ++ ").".data ++ " Used ".data) ++ (tu.data ++ ['.']) := by
    simp [List.append_assoc]
  rw [hsplit]
  exact containsSeg_intro _ _ _

theorem containsSeg_message_sig (p : ℚ) (tu dir : String) :
    containsSeg ("Significant difference found (p = ".data
      ++ formatFixed4 p ++ ").".data ++ " Used ".data ++ tu.data
      ++ ". ".data ++ dir.data) tu.data = true := by
  have hsplit : "Significant difference found (p = ".data
        ++ formatFixed4 p ++ ").".data ++ " Used ".data ++ tu.data
        ++ ". ".data ++ dir.data
      = ("Significant difference found (p = ".data ++ formatFixed4 p
          ++ ").".data ++ " Used ".data)
        ++ (tu.data ++ (". ".data ++ dir.data)) := by
    simp [List.append_assoc]
  rw [hsplit]
  exact containsSeg_intro _ _ _

theorem containsSeg_message_sig_dir (p : ℚ) (tu dir : String) :
    containsSeg ("Significant difference found (p = ".data
      ++ formatFixed4 p ++ ").".data ++ " Used ".data ++ tu.data
      ++ ". ".data ++ dir.data) dir.data = true := by
  have hsplit : "Significant difference found (p = ".data
        ++ formatFixed4 p ++ ").".data ++ " Used ".data ++ tu.data
        ++ ". ".data ++ dir.data
      = ("Significant difference found (p = ".data ++ formatFixed4 p
          ++ ").".data ++ " Used ".data ++ tu.data ++ ". ".data)
        ++ (dir.data ++ []) := by
    simp [List.append_assoc]
  rw [hsplit]
  exact containsSeg_intro _ _ _

/-- Any character of a returned message comes from one of the fixed text
fragments, the rendered p-value, or the test name. -/
theorem message_char_cases {p : ℚ} {tu : String} {a b : List ℚ}
    {r : ComparisonResult} {c : Char}
    (h : runSelectedTest (.ok p) tu a b = .ok r) (hmem : c ∈ r.message.data) :
    c ∈ "No significant difference found (p = ".data
      ∨ c ∈ "Significant difference found (p = ".data
      ∨ c ∈ numChars ∨ c ∈ "). Used . ".data ∨ c ∈ tu.data
      ∨ c ∈ "Group A mean is higher.".data
      ∨ c ∈ "Group B mean is higher.".data := by
  obtain ⟨-, hcase⟩ := runSelectedTest_ok_elim h
  rcases hcase with ⟨-, -, hmsg⟩ | ⟨-, -, -, hmsg⟩ | ⟨-, -, -, hmsg⟩
  · rw [hmsg] at hmem
    rcases mem_message_nonsig hmem with h' | h' | h' | h'
    · exact Or.inl h'
    · exact Or.inr (Or.inr (Or.inl h'))
    · exact Or.inr (Or.inr (Or.inr (Or.inl
        ((by decide : ∀ x ∈ "). Used .".data, x ∈ "). Used . ".data) c h'))))
    · exact Or.inr (Or.inr (Or.inr (Or.inr (Or.inl h'))))
  · rw [hmsg] at hmem
    rcases mem_message_sig hmem with h' | h' | h' | h' | h'
    · exact Or.inr (Or.inl h')
    · exact Or.inr (Or.inr (Or.inl h'))
    · exact Or.inr (Or.inr (Or.inr (Or.inl h')))
    · exact Or.inr (Or.inr (Or.inr (Or.inr (Or.inl h'))))
    · exact Or.inr (Or.inr (Or.inr (Or.inr (Or.inr (Or.inl h')))))
  · rw [hmsg] at hmem
    rcases mem_message_sig hmem with h' | h' | h' | h' | h'
    · exact Or.inr (Or.inl h')
    · exact Or.inr (Or.inr (Or.inl h'))
    · exact Or.inr (Or.inr (Or.inr (Or.inl h')))
    · exact Or.inr (Or.inr (Or.inr (Or.inr (Or.inl h'))))
    · exact Or.inr (Or.inr (Or.inr (Or.inr (Or.inr (Or.inr h')))))

/-- The returned message always contains the name of the executed test. -/
theorem runSelectedTest_message_contains {p : ℚ} {tu : String} {a b : List ℚ}
    {r : ComparisonResult} (h : runSelectedTest (.ok p) tu a b = .ok r) :
    strContains r.message tu = true := by
  obtain ⟨-, hcase⟩ := runSelectedTest_ok_elim h
  rcases hcase with ⟨-, -, hmsg⟩ | ⟨-, -, -, hmsg⟩ | ⟨-, -, -, hmsg⟩
  · show containsSeg r.message.data tu.data = true
    rw [hmsg]
    exact containsSeg_message_nonsig p tu
  · show containsSeg r.message.data tu.data = true
    rw [hmsg]
    exact containsSeg_message_sig p tu "Group A mean is higher."
  · show containsSeg r.message.data tu.data = true
    rw [hmsg]
    exact containsSeg_message_sig p tu "Group B mean is higher."

/-- C1: with the Shapiro–Wilk diagnostic succeeding on both sanitized
samples, `compare_groups` executes the independent T-test if and only if
both p-values are at least 0.05, and the Mann-Whitney rank-sum test
otherwise; the returned message names exactly the test executed. -/
theorem C1_test_selection (o : StatsOracle) (da db : List PyFloat)
    (m : String) (pa pb : ℚ)
    (ha : o.shapiro (sanitize da) = .ok pa)
    (hb : o.shapiro (sanitize db) = .ok pb) :
    (compare_groups o da db m =
      if 1/20 ≤ pa ∧ 1/20 ≤ pb then
        runSelectedTest (o.ttest_ind (sanitize da) (sanitize db))
          "T-test" (sanitize da) (sanitize db)
      else
        runSelectedTest (o.mannwhitneyu (sanitize da) (sanitize db))
          "Mann-Whitney U test" (sanitize da) (sanitize db))
    ∧ ∀ r : ComparisonResult, compare_groups o da db m = .ok r →
        (strContains r.message "T-test" = true ↔ 1/20 ≤ pa ∧ 1/20 ≤ pb)
        ∧ (strContains r.message "Mann-Whitney U test" = true
            ↔ ¬(1/20 ≤ pa ∧ 1/20 ≤ pb)) := by
  have hn := normalityFlags_ok_ok ha hb
  have hdisp : compare_groups o da db m =
      if 1/20 ≤ pa ∧ 1/20 ≤ pb then
        runSelectedTest (o.ttest_ind (sanitize da) (sanitize db))
          "T-test" (sanitize da) (sanitize db)
      else
        runSelectedTest (o.mannwhitneyu (sanitize da) (sanitize db))
          "Mann-Whitney U test" (sanitize da) (sanitize db) := by
    rw [compare_groups_eq, hn]
    dsimp only
    by_cases hcase : 1/20 ≤ pa ∧ 1/20 ≤ pb
    · rw [if_pos hcase]
      have hbb : (decide (pa ≥ 1/20) && decide (pb ≥ 1/20)) = true := by
        simp only [Bool.and_eq_true, decide_eq_true_eq, ge_iff_le]
        exact ⟨hcase.1, hcase.2⟩
      rw [hbb]
      simp
    · rw [if_neg hcase]
      have hbb : (decide (pa ≥ 1/20) && decide (pb ≥ 1/20)) = false := by
        have hne : ¬ ((decide (pa ≥ 1/20) && decide (pb ≥ 1/20)) = true) := by
          simp only [Bool.and_eq_true, decide_eq_true_eq, ge_iff_le]
          exact hcase
        exact Bool.eq_false_iff.mpr hne
      rw [hbb]
      simp
  refine ⟨hdisp, ?_⟩
  intro r hr
  rw [hdisp] at hr
  by_cases hcase : 1/20 ≤ pa ∧ 1/20 ≤ pb
  · rw [if_pos hcase] at hr
    obtain ⟨hres, -⟩ := runSelectedTest_ok_inv hr
    rw [hres] at hr
    refine ⟨⟨fun _ => hcase, fun _ => runSelectedTest_message_contains hr⟩,
      ⟨?_, fun hneg => absurd hcase hneg⟩⟩
    intro hcon
    have hfalse : strContains r.message "Mann-Whitney U test" = false := by
      apply strContains_eq_false_of (c := 'W') (by decide)
      intro hmem
      rcases message_char_cases hr hmem with h' | h' | h' | h' | h' | h' | h'
        <;> revert h' <;> decide
    rw [hfalse] at hcon
    exact absurd hcon Bool.false_ne_true
  · rw [if_neg hcase] at hr
    obtain ⟨hres, -⟩ := runSelectedTest_ok_inv hr
    rw [hres] at hr
    refine ⟨⟨?_, fun hpos => absurd hpos hcase⟩,
      ⟨fun _ => hcase, fun _ => runSelectedTest_message_contains hr⟩⟩
    intro hcon
    have hfalse : strContains r.message "T-test" = false := by
      apply strContains_eq_false_of (c := 'T') (by decide)
      intro hmem
      rcases message_char_cases hr hmem with h' | h' | h' | h' | h' | h' | h'
        <;> revert h' <;> decide
    rw [hfalse] at hcon
    exact absurd hcon Bool.false_ne_true

theorem string_mk_ne_empty_of_right {A B : List Char} (hB : B ≠ []) :
    (⟨A ++ B⟩ : String) ≠ "" := by
  intro heq
  have hdata : A ++ B = [] := congrArg String.data heq
  rcases List.append_eq_nil.mp hdata with ⟨-, h2⟩
  exact hB h2

theorem sentence_break_nonsig (p : ℚ) (tu : String) :
    containsSeg ("No significant difference found (p = ".data
      ++ formatFixed4 p ++ ").".data ++ " Used ".data ++ tu.data ++ ['.'])
      ['.', ' '] = true := by
  have e1 : ").".data = [')'] ++ ['.'] := rfl
  have e2 : " Used ".data = [' '] ++ "Used ".data := rfl
  have hsplit : "No significant difference found (p = ".data
        ++ formatFixed4 p ++ ").".data ++ " Used ".data ++ tu.data ++ ['.']
      = ("No significant difference found (p = ".data ++ formatFixed4 p
          ++ [')'])
        ++ (['.', ' '] ++ ("Used ".data ++ tu.data ++ ['.'])) := by
    rw [e1, e2]
    simp [List.append_assoc]
  rw [hsplit]
  exact containsSeg_intro _ _ _

theorem sentence_break_sig (p : ℚ) (tu dir : String) :
    containsSeg ("Significant difference found (p = ".data
      ++ formatFixed4 p ++ ").".data ++ " Used ".data ++ tu.data
      ++ ". ".data ++ dir.data) ['.', ' '] = true := by
  have e1 : ").".data = [')'] ++ ['.'] := rfl
  have e2 : " Used ".data = [' '] ++ "Used ".data := rfl
  have hsplit : "Significant difference found (p = ".data
        ++ formatFixed4 p ++ ").".data ++ " Used ".data ++ tu.data
        ++ ". ".data ++ dir.data
      = ("Significant difference found (p = ".data ++ formatFixed4 p
          ++ [')'])
        ++ (['.', ' ']
          ++ ("Used ".data ++ tu.data ++ ". ".data ++ dir.data)) := by
    rw [e1, e2]
    simp [List.append_assoc]
  rw [hsplit]
  exact containsSeg_intro _ _ _

theorem pval_seg_nonsig (p : ℚ) (tu : String) :
    containsSeg ("No significant difference found (p = ".data
      ++ formatFixed4 p ++ ").".data ++ " Used ".data ++ tu.data ++ ['.'])
      ("(p = ".data ++ formatFixed4 p ++ [')']) = true := by
  have e1 : "No significant difference found (p = ".data
      = "No significant difference found ".data ++ "(p = ".data := rfl
  have e2 : ").".data = [')'] ++ ['.'] := rfl
  have hsplit : "No significant difference found (p = ".data
        ++ formatFixed4 p ++ ").".data ++ " Used ".data ++ tu.data ++ ['.']
      = "No significant difference found ".data
        ++ (("(p = ".data ++ formatFixed4 p ++ [')'])
          ++ (['.'] ++ " Used ".data ++ tu.data ++ ['.'])) := by
    rw [e1, e2]
    simp [List.append_assoc]
  rw [hsplit]
  exact containsSeg_intro _ _ _

theorem pval_seg_sig (p : ℚ) (tu dir : String) :
    containsSeg ("Significant difference found (p = ".data
      ++ formatFixed4 p ++ ").".data ++ " Used ".data ++ tu.data
      ++ ". ".data ++ dir.data)
      ("(p = ".data ++ formatFixed4 p ++ [')']) = true := by
  have e1 : "Significant difference found (p = ".data
      = "Significant difference found ".data ++ "(p = ".data := rfl
  have e2 : ").".data = [')'] ++ ['.'] := rfl
  have hsplit : "Significant difference found (p = ".data
        ++ formatFixed4 p ++ ").".data ++ " Used ".data ++ tu.data
        ++ ". ".data ++ dir.data
      = "Significant difference found ".data
        ++ (("(p = ".data ++ formatFixed4 p ++ [')'])
          ++ (['.'] ++ " Used ".data ++ tu.data ++ ". ".data ++ dir.data))
      := by
    rw [e1, e2]
    simp [List.append_assoc]
  rw [hsplit]
  exact containsSeg_intro _ _ _

/-- C10: when a returned result is significant but the sanitized mean of
group A is not strictly greater than that of group B — including exact
equality — the message asserts "Group B mean is higher." (the source's
`else` branch of `mean_a > mean_b`). -/
theorem C10_tie_break_group_B (o : StatsOracle) (da db : List PyFloat)
    (m : String) (r : ComparisonResult)
    (_hA : sanitize da ≠ []) (_hB : sanitize db ≠ [])
    (h : compare_groups o da db m = .ok r)
    (hsig : r.significant = true)
    (hmean : ¬ npMean (sanitize da) > npMean (sanitize db)) :
    strContains r.message "Group B mean is higher." = true := by
  obtain ⟨na, nb, -, hcase⟩ := compare_groups_ok_inv h
  rcases hcase with ⟨-, hr⟩ | ⟨-, hr⟩ <;>
  · obtain ⟨hres, -⟩ := runSelectedTest_ok_inv hr
    rw [hres] at hr
    obtain ⟨-, hcase2⟩ := runSelectedTest_ok_elim hr
    rcases hcase2 with ⟨-, hsf, -⟩ | ⟨-, hm, -, -⟩ | ⟨-, -, -, hmsg⟩
    · rw [hsf] at hsig; exact absurd hsig Bool.false_ne_true
    · exact absurd hm hmean
    · show containsSeg r.message.data _ = true
      rw [hmsg]
      exact containsSeg_message_sig_dir _ _ "Group B mean is higher."

theorem C10_tie_break_group_B_witness :
    sanitize [PyFloat.val 1, PyFloat.val 2, PyFloat.val 3] ≠ [] ∧
    compare_groups demoOracle [PyFloat.val 1, PyFloat.val 2, PyFloat.val 3]
        [PyFloat.val 4, PyFloat.val 5, PyFloat.val 6] "t-test"
      = .ok { p_value := 1/100, significant := true,
              message := "Significant difference found (p = 0.0100). Used T-test. Group B mean is higher." } ∧
    (¬ npMean (sanitize [PyFloat.val 1, PyFloat.val 2, PyFloat.val 3])
        > npMean (sanitize [PyFloat.val 4, PyFloat.val 5, PyFloat.val 6])) ∧
    strContains "Significant difference found (p = 0.0100). Used T-test. Group B mean is higher."
      "Group B mean is higher." = true := by
  have hok : compare_groups demoOracle
      [PyFloat.val 1, PyFloat.val 2, PyFloat.val 3]
      [PyFloat.val 4, PyFloat.val 5, PyFloat.val 6] "t-test"
    = .ok { p_value := 1/100, significant := true,
            message := "Significant difference found (p = 0.0100). Used T-test. Group B mean is higher." } := by
    with_unfolding_all rfl
  have hmean : ¬ npMean (sanitize [PyFloat.val 1, PyFloat.val 2, PyFloat.val 3])
      > npMean (sanitize [PyFloat.val 4, PyFloat.val 5, PyFloat.val 6]) := by
    with_unfolding_all decide
  exact ⟨by decide, hok, hmean,
    C10_tie_break_group_B demoOracle
      [PyFloat.val 1, PyFloat.val 2, PyFloat.val 3]
      [PyFloat.val 4, PyFloat.val 5, PyFloat.val 6] "t-test" _
      (by decide) (by decide) hok rfl hmean⟩

/-- C4: the message carries a directional claim ("Group A mean is higher."
or "Group B mean is higher.") exactly when the result is significant, and
when one group's sanitized arithmetic mean is strictly higher than the
other's, the directional claim names that group (the tie case is settled
separately by the tie-break property). -/
theorem C4_direction_iff_significant (o : StatsOracle) (da db : List PyFloat)
    (m : String) (r : ComparisonResult)
    (_hA : sanitize da ≠ []) (_hB : sanitize db ≠ [])
    (h : compare_groups o da db m = .ok r) :
    ((strContains r.message "Group A mean is higher." = true
        ∨ strContains r.message "Group B mean is higher." = true)
      ↔ r.significant = true)
    ∧ (r.significant = true →
        npMean (sanitize da) > npMean (sanitize db) →
        strContains r.message "Group A mean is higher." = true
          ∧ strContains r.message "Group B mean is higher." = false)
    ∧ (r.significant = true →
        npMean (sanitize db) > npMean (sanitize da) →
        strContains r.message "Group B mean is higher." = true
          ∧ strContains r.message "Group A mean is higher." = false) := by
  obtain ⟨na, nb, -, hcase⟩ := compare_groups_ok_inv h
  rcases hcase with ⟨-, hr⟩ | ⟨-, hr⟩ <;>
  · obtain ⟨hres, -⟩ := runSelectedTest_ok_inv hr
    rw [hres] at hr
    obtain ⟨-, hcase2⟩ := runSelectedTest_ok_elim hr
    rcases hcase2 with ⟨-, hsf, hmsg⟩ | ⟨-, hm, hst, hmsg⟩ | ⟨-, hm, hst, hmsg⟩
    · -- not significant: no directional text at all
      have hga : strContains r.message "Group A mean is higher." = false := by
        apply strContains_eq_false_of (c := 'G') (by decide)
        intro hmem
        rw [hmsg] at hmem
        rcases mem_message_nonsig hmem with h' | h' | h' | h' <;>
          revert h' <;> decide
      have hgb : strContains r.message "Group B mean is higher." = false := by
        apply strContains_eq_false_of (c := 'G') (by decide)
        intro hmem
        rw [hmsg] at hmem
        rcases mem_message_nonsig hmem with h' | h' | h' | h' <;>
          revert h' <;> decide
      refine ⟨⟨?_, ?_⟩, ?_, ?_⟩
      · rintro (hc | hc)
        · rw [hga] at hc; exact absurd hc Bool.false_ne_true
        · rw [hgb] at hc; exact absurd hc Bool.false_ne_true
      · intro hs; rw [hsf] at hs; exact absurd hs Bool.false_ne_true
      · intro hs; rw [hsf] at hs; exact absurd hs Bool.false_ne_true
      · intro hs; rw [hsf] at hs; exact absurd hs Bool.false_ne_true
    · -- significant, group A strictly higher
      have hca : strContains r.message "Group A mean is higher." = true := by
        show containsSeg r.message.data _ = true
        rw [hmsg]
        exact containsSeg_message_sig_dir _ _ "Group A mean is higher."
      have hgb : strContains r.message "Group B mean is higher." = false := by
        apply strContains_eq_false_of (c := 'B') (by decide)
        intro hmem
        rw [hmsg] at hmem
        rcases mem_message_sig hmem with h' | h' | h' | h' | h' <;>
          revert h' <;> decide
      refine ⟨⟨fun _ => hst, fun _ => Or.inl hca⟩,
        fun _ _ => ⟨hca, hgb⟩, fun _ hlt => absurd hm (lt_asymm hlt)⟩
    · -- significant, not (mean A > mean B): message says group B
      have hcb : strContains r.message "Group B mean is higher." = true := by
        show containsSeg r.message.data _ = true
        rw [hmsg]
        exact containsSeg_message_sig_dir _ _ "Group B mean is higher."
      have hga : strContains r.message "Group A mean is higher." = false := by
        apply strContains_eq_false_of (c := 'A') (by decide)
        intro hmem
        rw [hmsg] at hmem
        rcases mem_message_sig hmem with h' | h' | h' | h' | h' <;>
          revert h' <;> decide
      refine ⟨⟨fun _ => hst, fun _ => Or.inr hcb⟩,
        fun _ hgt => absurd hgt hm, fun _ _ => ⟨hcb, hga⟩⟩

theorem C4_direction_iff_significant_witness :
    compare_groups demoOracle [PyFloat.val 1, PyFloat.val 2, PyFloat.val 3]
        [PyFloat.val 4, PyFloat.val 5, PyFloat.val 6] "t-test"
      = .ok { p_value := 1/100, significant := true,
              message := "Significant difference found (p = 0.0100). Used T-test. Group B mean is higher." } ∧
    npMean (sanitize [PyFloat.val 4, PyFloat.val 5, PyFloat.val 6])
      > npMean (sanitize [PyFloat.val 1, PyFloat.val 2, PyFloat.val 3]) ∧
    strContains "Significant difference found (p = 0.0100). Used T-test. Group B mean is higher."
      "Group B mean is higher." = true ∧
    strContains "Significant difference found (p = 0.0100). Used T-test. Group B mean is higher."
      "Group A mean is higher." = false := by
  have hok : compare_groups demoOracle
      [PyFloat.val 1, PyFloat.val 2, PyFloat.val 3]
      [PyFloat.val 4, PyFloat.val 5, PyFloat.val 6] "t-test"
    = .ok { p_value := 1/100, significant := true,
            message := "Significant difference found (p = 0.0100). Used T-test. Group B mean is higher." } := by
    with_unfolding_all rfl
  have hgt : npMean (sanitize [PyFloat.val 4, PyFloat.val 5, PyFloat.val 6])
      > npMean (sanitize [PyFloat.val 1, PyFloat.val 2, PyFloat.val 3]) := by
    with_unfolding_all decide
  have hmain := C4_direction_iff_significant demoOracle
    [PyFloat.val 1, PyFloat.val 2, PyFloat.val 3]
    [PyFloat.val 4, PyFloat.val 5, PyFloat.val 6] "t-test" _
    (by decide) (by decide) hok
  exact ⟨hok, hgt, (hmain.2.2 rfl hgt).1, (hmain.2.2 rfl hgt).2⟩

theorem C1_test_selection_witness :
    demoOracle.shapiro
        (sanitize [PyFloat.val 1, PyFloat.val 2, PyFloat.val 3])
      = .ok (9/10) ∧
    demoOracle.shapiro
        (sanitize [PyFloat.val 4, PyFloat.val 5, PyFloat.val 6])
      = .ok (9/10) ∧
    (strContains "Significant difference found (p = 0.0100). Used T-test. Group B mean is higher."
        "T-test" = true ↔ (1/20 ≤ (9:ℚ)/10 ∧ 1/20 ≤ (9:ℚ)/10)) ∧
    (strContains "Significant difference found (p = 0.0100). Used T-test. Group B mean is higher."
        "Mann-Whitney U test" = true
      ↔ ¬(1/20 ≤ (9:ℚ)/10 ∧ 1/20 ≤ (9:ℚ)/10)) := by
  have ha : demoOracle.shapiro
      (sanitize [PyFloat.val 1, PyFloat.val 2, PyFloat.val 3])
    = .ok (9/10) := by with_unfolding_all rfl
  have hb : demoOracle.shapiro
      (sanitize [PyFloat.val 4, PyFloat.val 5, PyFloat.val 6])
    = .ok (9/10) := by with_unfolding_all rfl
  have hok : compare_groups demoOracle
      [PyFloat.val 1, PyFloat.val 2, PyFloat.val 3]
      [PyFloat.val 4, PyFloat.val 5, PyFloat.val 6] "t-test"
    = .ok { p_value := 1/100, significant := true,
            message := "Significant difference found (p = 0.0100). Used T-test. Group B mean is higher." } := by
    with_unfolding_all rfl
  have hmain := (C1_test_selection demoOracle
    [PyFloat.val 1, PyFloat.val 2, PyFloat.val 3]
    [PyFloat.val 4, PyFloat.val 5, PyFloat.val 6] "t-test"
    (9/10) (9/10) ha hb).2 _ hok
  exact ⟨ha, hb, hmain.1, hmain.2⟩

/-- Everything the output contract asserts about a successfully packaged
result, for either test name. -/
theorem output_contract_core {p : ℚ} {tu : String} {a b : List ℚ}
    {r : ComparisonResult}
    (htu : tu = "T-test" ∨ tu = "Mann-Whitney U test")
    (hr : runSelectedTest (.ok p) tu a b = .ok r) (hp0 : 0 ≤ p) :
    r.message ≠ ""
    ∧ (∀ c ∈ r.message.data, c ≠ '\n' ∧ c ≠ '\r')
    ∧ isSingleSentence r.message = false
    ∧ strContains r.message
        ⟨"(p = ".data ++ formatFixed4 r.p_value ++ [')']⟩ = true
    ∧ (∃ ip fr : List Char,
        formatFixed4 r.p_value = ip ++ '.' :: fr ∧ fr.length = 4)
    ∧ strContains r.message tu = true := by
  obtain ⟨hpv, hcase⟩ := runSelectedTest_ok_elim hr
  have hp0' : 0 ≤ r.p_value := by rw [hpv]; exact hp0
  obtain ⟨ip, fr, hfmt, hfrlen, -⟩ := formatFixed4_shape hp0'
  refine ⟨?_, ?_, ?_, ?_, ⟨ip, fr, hfmt, hfrlen⟩,
    runSelectedTest_message_contains hr⟩
  · rcases hcase with ⟨-, -, hmsg⟩ | ⟨-, -, -, hmsg⟩ | ⟨-, -, -, hmsg⟩ <;>
      rw [hmsg]
    · exact string_mk_ne_empty_of_right (by decide)
    · exact string_mk_ne_empty_of_right (by decide)
    · exact string_mk_ne_empty_of_right (by decide)
  · intro c hc
    rcases hcase with ⟨-, -, hmsg⟩ | ⟨-, -, -, hmsg⟩ | ⟨-, -, -, hmsg⟩
    · rw [hmsg] at hc
      rcases mem_message_nonsig hc with h' | h' | h' | h'
      · clear hc; revert c; decide
      · clear hc; revert c; decide
      · clear hc; revert c; decide
      · rcases htu with rfl | rfl <;> (clear hc; revert c; decide)
    · rw [hmsg] at hc
      rcases mem_message_sig hc with h' | h' | h' | h' | h'
      · clear hc; revert c; decide
      · clear hc; revert c; decide
      · clear hc; revert c; decide
      · rcases htu with rfl | rfl <;> (clear hc; revert c; decide)
      · clear hc; revert c; decide
    · rw [hmsg] at hc
      rcases mem_message_sig hc with h' | h' | h' | h' | h'
      · clear hc; revert c; decide
      · clear hc; revert c; decide
      · clear hc; revert c; decide
      · rcases htu with rfl | rfl <;> (clear hc; revert c; decide)
      · clear hc; revert c; decide
  · have hbreak : containsSeg r.message.data ['.', ' '] = true := by
      rcases hcase with ⟨-, -, hmsg⟩ | ⟨-, -, -, hmsg⟩ | ⟨-, -, -, hmsg⟩ <;>
        rw [hmsg]
      · exact sentence_break_nonsig p tu
      · exact sentence_break_sig p tu "Group A mean is higher."
      · exact sentence_break_sig p tu "Group B mean is higher."
    simp [isSingleSentence, hbreak]
  · show containsSeg r.message.data
      ("(p = ".data ++ formatFixed4 r.p_value ++ [')']) = true
    rw [hpv]
    rcases hcase with ⟨-, -, hmsg⟩ | ⟨-, -, -, hmsg⟩ | ⟨-, -, -, hmsg⟩ <;>
      rw [hmsg]
    · exact pval_seg_nonsig p tu
    · exact pval_seg_sig p tu "Group A mean is higher."
    · exact pval_seg_sig p tu "Group B mean is higher."

/-- C7, counterexample to "single sentence": a returned message always
consists of more than one sentence — here, a concrete call whose message
is "No significant difference found (p = 0.3000). Used Mann-Whitney U
test.", two sentences. -/
theorem C7_single_sentence_counterexample :
    compare_groups demoOracle [PyFloat.val 1, PyFloat.val 2]
        [PyFloat.val 4, PyFloat.val 5, PyFloat.val 6] "t-test"
      = .ok { p_value := 3/10, significant := false,
              message := "No significant difference found (p = 0.3000). Used Mann-Whitney U test." }
    ∧ isSingleSentence
        "No significant difference found (p = 0.3000). Used Mann-Whitney U test."
      = false :=
  ⟨by with_unfolding_all rfl, by decide⟩

/-- C7, amended: every successful result is a record of exactly the three
fields `p_value`, `significant`, `message` (the type `ComparisonResult`);
whenever the underlying tests return p-values in [0,1], `p_value` lies in
[0,1]; and `message` is a non-empty single line — no line breaks — built
of more than one sentence, reporting the p-value rendered to 4 decimal
places and naming the test used. -/
theorem C7_output_contract (o : StatsOracle) (da db : List PyFloat)
    (m : String) (r : ComparisonResult)
    (hT : ∀ x y : List ℚ, ∀ p : ℚ, o.ttest_ind x y = .ok p → 0 ≤ p ∧ p ≤ 1)
    (hM : ∀ x y : List ℚ, ∀ p : ℚ, o.mannwhitneyu x y = .ok p → 0 ≤ p ∧ p ≤ 1)
    (h : compare_groups o da db m = .ok r) :
    (0 ≤ r.p_value ∧ r.p_value ≤ 1)
    ∧ r.message ≠ ""
    ∧ (∀ c ∈ r.message.data, c ≠ '\n' ∧ c ≠ '\r')
    ∧ isSingleSentence r.message = false
    ∧ strContains r.message
        ⟨"(p = ".data ++ formatFixed4 r.p_value ++ [')']⟩ = true
    ∧ (∃ ip fr : List Char,
        formatFixed4 r.p_value = ip ++ '.' :: fr ∧ fr.length = 4)
    ∧ (strContains r.message "T-test" = true
        ∨ strContains r.message "Mann-Whitney U test" = true) := by
  obtain ⟨na, nb, -, hcase⟩ := compare_groups_ok_inv h
  rcases hcase with ⟨-, hr⟩ | ⟨-, hr⟩
  · obtain ⟨hres, -⟩ := runSelectedTest_ok_inv hr
    have hrange := hT _ _ _ hres
    rw [hres] at hr
    obtain ⟨hne, hnl, hss, hpseg, hshape, hcon⟩ :=
      output_contract_core (Or.inl rfl) hr hrange.1
    exact ⟨hrange, hne, hnl, hss, hpseg, hshape, Or.inl hcon⟩
  · obtain ⟨hres, -⟩ := runSelectedTest_ok_inv hr
    have hrange := hM _ _ _ hres
    rw [hres] at hr
    obtain ⟨hne, hnl, hss, hpseg, hshape, hcon⟩ :=
      output_contract_core (Or.inr rfl) hr hrange.1
    exact ⟨hrange, hne, hnl, hss, hpseg, hshape, Or.inr hcon⟩

theorem C7_output_contract_witness :
    compare_groups demoOracle [PyFloat.val 1, PyFloat.val 2]
        [PyFloat.val 4, PyFloat.val 5, PyFloat.val 6] "t-test"
      = .ok { p_value := 3/10, significant := false,
              message := "No significant difference found (p = 0.3000). Used Mann-Whitney U test." }
    ∧ (0 ≤ ({ p_value := 3/10, significant := false,
              message := "No significant difference found (p = 0.3000). Used Mann-Whitney U test." } : ComparisonResult).p_value
        ∧ ({ p_value := 3/10, significant := false,
              message := "No significant difference found (p = 0.3000). Used Mann-Whitney U test." } : ComparisonResult).p_value ≤ 1)
    ∧ isSingleSentence
        ({ p_value := 3/10, significant := false,
           message := "No significant difference found (p = 0.3000). Used Mann-Whitney U test." } : ComparisonResult).message
      = false := by
  have hok : compare_groups demoOracle [PyFloat.val 1, PyFloat.val 2]
      [PyFloat.val 4, PyFloat.val 5, PyFloat.val 6] "t-test"
    = .ok { p_value := 3/10, significant := false,
            message := "No significant difference found (p = 0.3000). Used Mann-Whitney U test." } := by
    with_unfolding_all rfl
  have hmain := C7_output_contract demoOracle
    [PyFloat.val 1, PyFloat.val 2]
    [PyFloat.val 4, PyFloat.val 5, PyFloat.val 6] "t-test" _
    (fun x y p hp => by
      simp only [demoOracle, Except.ok.injEq] at hp
      subst hp
      norm_num)
    (fun x y p hp => by
      simp only [demoOracle, Except.ok.injEq] at hp
      subst hp
      norm_num)
    hok
  exact ⟨hok, hmain.1, hmain.2.2.2.1⟩

end SberNeuro
